import Mathlib

/-!
# twilio/sms.go : SendSMS, GetSMS, ListSMS

A shallow embedding of `sms.go`.  The three operations are embedded with explicit
state passing: the state is the trace of requests handed to the HTTP requester.
Go's pointer results are `Option`s (`none` is the nil pointer) and Go's `error`
interface is the sum `Error`, whose `exception` case carries the `*Exception`
pointer it wraps (which may itself be nil).
-/

namespace TwilioSMS

/-! ## Data model -/

/-- Go `float32`, carried as its IEEE-754 bit pattern; `sms.go` does no arithmetic on it. -/
structure Float32 where
  bits : Nat
  deriving DecidableEq, Repr

/-- Struct `SMSResponse` (sms.go, lines 10-24). -/
structure SMSResponse where
  AccountSid : String
  ApiVersion : String
  Body : String
  DateCreated : String
  DateSent : String
  DateUpdated : String
  Direction : String
  From : String
  Price : Float32
  Sid : String
  Status : String
  To : String
  Uri : String
  deriving DecidableEq, Repr

/-- Struct `SMSListResponse` (sms.go, lines 26-39). -/
structure SMSListResponse where
  Start : Int
  Total : Int
  NumPages : Int
  Page : Int
  PageSize : Int
  End : Int
  Uri : String
  FirstPageUri : String
  LastPageUri : String
  NextPageUri : String
  PreviousPageUri : String
  SMSMessages : List SMSResponse
  deriving DecidableEq, Repr

/-- Struct `SMSParams` (sms.go, lines 41-44). -/
structure SMSParams where
  StatusCallback : String
  ApplicationSid : String
  deriving DecidableEq, Repr

/-- Modelled from the spec: the `Exception` type is declared outside `sms.go`.  The spec's
ApiFault carries a status code, a message, a more-info link and a provider-specific code. -/
structure Exception where
  Status : Int
  Message : String
  MoreInfo : String
  Code : Int
  deriving DecidableEq, Repr

/-- Modelled from the spec: the `Twilio` client type is declared outside `sms.go`; these are
the two configuration fields that `smsEndpoint` reads. -/
structure Twilio where
  BaseUrl : String
  AccountSid : String
  deriving DecidableEq, Repr

/-- Go zero value of `SMSResponse`. -/
def SMSResponse.zero : SMSResponse :=
  ⟨"", "", "", "", "", "", "", "", ⟨0⟩, "", "", "", ""⟩

/-- Go zero value of `SMSListResponse`. -/
def SMSListResponse.zero : SMSListResponse :=
  ⟨0, 0, 0, 0, 0, 0, "", "", "", "", "", []⟩

/-- Go zero value of `Exception`, what `new(Exception)` points to. -/
def Exception.zero : Exception := ⟨0, "", "", 0⟩

/-- Constant `http.StatusCreated`. -/
def StatusCreated : Int := 201

/-- Constant `http.StatusOK`. -/
def StatusOK : Int := 200

/-! ## `url.Values` -/

/-- Type `url.Values`, which is `map[string][]string`; here a key-unique association list. -/
abbrev Values := List (String × List String)

/-- The empty map `url.Values{}`. -/
def Values.empty : Values := []

/-- Method `Values.Set(key, value)`: `v[key] = []string{value}`, replacing what was there. -/
def Values.Set (v : Values) (key value : String) : Values :=
  (key, [value]) :: v.filter (fun e => e.1 != key)

/-- Map read `v[key]`: `none` when the key is absent. -/
def Values.find (v : Values) (key : String) : Option (List String) :=
  List.lookup key v

/-! ## `encoding/json` -/

/-- Errors `json.Unmarshal` reports: a body that is not JSON, or JSON of the wrong type for
the target. -/
inductive JsonError where
  | malformed (offset : Nat)
  | mismatch (field : String)
  deriving DecidableEq, Repr

/-- JSON documents. -/
inductive Json where
  | null
  | bool (b : Bool)
  | num (literal : String)
  | str (s : String)
  | arr (items : List Json)
  | obj (members : List (String × Json))

/-- The standard library's JSON decoder, as far as `sms.go` depends on it: the validity scan
and parse of a body, and for each target struct the field-by-field decoding of a non-null
document into a value (starting from the value given), with the first type error if any. -/
structure Codec where
  parse : String → Except JsonError Json
  decodeSMS : Json → SMSResponse → SMSResponse × Option JsonError
  decodeList : Json → SMSListResponse → SMSListResponse × Option JsonError
  decodeException : Json → Exception → Exception × Option JsonError

/-- Call `json.Unmarshal(data, &v)` for a pointer variable `v : *T`.  The body is first checked for
validity; an invalid body leaves `v` alone.  The literal `null` sets `v` to nil and reports no
error.  Any other document is decoded into what `v` points to, a fresh zero value being
allocated when `v` is nil.  Returns the new `v` and the error. -/
def Unmarshal {α : Type} (parse : String → Except JsonError Json)
    (decode : Json → α → α × Option JsonError) (zero : α)
    (data : String) (v : Option α) : Option α × Option JsonError :=
  match parse data with
  | .error e => (v, some e)
  | .ok .null => (none, none)
  | .ok j =>
    let r := decode j (v.getD zero)
    (some r.1, r.2)

/-! ## Errors, requests, the requester -/

/-- Go `error` values met in `sms.go`.  `exception p` is the interface value wrapping the
pointer `p : *Exception`; `exception none` wraps a nil pointer and is still a non-nil `error`. -/
inductive Error where
  | exception (p : Option Exception)
  | json (e : JsonError)
  | other (msg : String)
  deriving DecidableEq, Repr

/-- A call made to the HTTP requester. -/
inductive Request where
  | POST (endpoint : String) (params : Values)
  | GET (endpoint : String) (params : Values)
  deriving DecidableEq, Repr

/-- What the requester returns: `(body, status, err)`. -/
structure Reply where
  body : String
  status : Int
  err : Option Error
  deriving DecidableEq, Repr

/-- The parts of the package and of its collaborators that `sms.go` uses and does not define:
the constant `apiFormat`, the behaviour of the HTTP requester (which may depend on the
requests made before), and the JSON decoder. -/
structure Env where
  apiFormat : String
  requester : List Request → Request → Reply
  codec : Codec

/-- Modelled from the spec: the method `post` of the client is not in `sms.go`.  The requester
exposes `post(endpoint, formParams) -> (body, statusCode, transportError)`; the call is
recorded on the trace. -/
def post (env : Env) (endpoint : String) (params : Values) (trace : List Request) :
    Reply × List Request :=
  (env.requester trace (.POST endpoint params), trace ++ [.POST endpoint params])

/-- Modelled from the spec: the method `get` of the client is not in `sms.go`.  The requester
exposes `get(endpoint, queryParams) -> (body, statusCode, transportError)`; the call is
recorded on the trace. -/
def get (env : Env) (endpoint : String) (params : Values) (trace : List Request) :
    Reply × List Request :=
  (env.requester trace (.GET endpoint params), trace ++ [.GET endpoint params])

/-! ## The operations of `sms.go` -/

/-- Go results `(s *T, err error)`. -/
abbrev Result (α : Type) := Option α × Option Error

/-- Method `smsEndpoint` (sms.go, lines 46-48). -/
def smsEndpoint (t : Twilio) : String :=
  t.BaseUrl ++ "/Accounts/" ++ t.AccountSid ++ "/SMS/Messages"

/-- Method `SendSMS` (sms.go, lines 58-94). -/
def SendSMS (env : Env) (t : Twilio) (from_ to_ body : String) (p : SMSParams)
    (trace : List Request) : Result SMSResponse × List Request :=
  let endpoint := smsEndpoint t ++ "." ++ env.apiFormat
  let params := Values.empty
  let params := params.Set "From" from_
  let params := params.Set "To" to_
  let params := params.Set "Body" body
  let params := if p.StatusCallback ≠ "" then params.Set "StatusCallback" p.StatusCallback
    else params
  let params := if p.ApplicationSid ≠ "" then params.Set "ApplicationSid" p.ApplicationSid
    else params
  let sent := post env endpoint params trace
  let b := sent.1.body
  let status := sent.1.status
  match sent.1.err with
  | some err => ((none, some err), sent.2)
  | none =>
    if status ≠ StatusCreated then
      let u := Unmarshal env.codec.parse env.codec.decodeException Exception.zero b
        (some Exception.zero)
      match u.2 with
      | some err => ((none, some (.json err)), sent.2)
      | none => ((none, some (.exception u.1)), sent.2)
    else
      let u := Unmarshal env.codec.parse env.codec.decodeSMS SMSResponse.zero b none
      match u.2 with
      | some err => ((none, some (.json err)), sent.2)
      | none => ((u.1, none), sent.2)

/-- Method `SimpleSendSMS` (sms.go, lines 51-53). -/
def SimpleSendSMS (env : Env) (t : Twilio) (from_ to_ body : String)
    (trace : List Request) : Result SMSResponse × List Request :=
  SendSMS env t from_ to_ body ⟨"", ""⟩ trace

/-- Method `GetSMS` (sms.go, lines 96-120). -/
def GetSMS (env : Env) (t : Twilio) (sid : String)
    (trace : List Request) : Result SMSResponse × List Request :=
  let endpoint := smsEndpoint t ++ "/" ++ sid ++ "." ++ env.apiFormat
  let sent := get env endpoint Values.empty trace
  let b := sent.1.body
  let status := sent.1.status
  match sent.1.err with
  | some err => ((none, some err), sent.2)
  | none =>
    if status ≠ StatusOK then
      let u := Unmarshal env.codec.parse env.codec.decodeException Exception.zero b
        (some Exception.zero)
      match u.2 with
      | some err => ((none, some (.json err)), sent.2)
      | none => ((none, some (.exception u.1)), sent.2)
    else
      let u := Unmarshal env.codec.parse env.codec.decodeSMS SMSResponse.zero b none
      match u.2 with
      | some err => ((none, some (.json err)), sent.2)
      | none => ((u.1, none), sent.2)

/-- Method `ListSMS` (sms.go, lines 126-155).  `filters` lists the entries of the Go map in the order
in which `range` visits them. -/
def ListSMS (env : Env) (t : Twilio) (filters : List (String × String))
    (trace : List Request) : Result SMSListResponse × List Request :=
  let endpoint := smsEndpoint t ++ "." ++ env.apiFormat
  let params := Values.empty
  let params := filters.foldl (fun ps kv => Values.Set ps kv.1 kv.2) params
  let sent := get env endpoint params trace
  let b := sent.1.body
  let status := sent.1.status
  match sent.1.err with
  | some err => ((none, some err), sent.2)
  | none =>
    if status ≠ StatusOK then
      let u := Unmarshal env.codec.parse env.codec.decodeException Exception.zero b
        (some Exception.zero)
      match u.2 with
      | some err => ((none, some (.json err)), sent.2)
      | none => ((none, some (.exception u.1)), sent.2)
    else
      let u := Unmarshal env.codec.parse env.codec.decodeList SMSListResponse.zero b none
      match u.2 with
      | some err => ((none, some (.json err)), sent.2)
      | none => ((u.1, none), sent.2)

/-! ## Fixtures used to instantiate the theorems -/

/-- Key folding for the case-insensitive match of a JSON key against a field name. -/
def foldKey (key : String) : String :=
  String.mk (key.data.map Char.toLower)

/-- Value of a string of decimal digits; `none` when a character is not a digit or there is
no digit. -/
def natOfDigits (ds : List Char) : Option Nat :=
  if ds ≠ [] ∧ ds.all (fun c => decide (48 ≤ c.toNat ∧ c.toNat ≤ 57)) = true then
    some (ds.foldl (fun n c => 10 * n + (c.toNat - 48)) 0)
  else none

/-- Integer written by a JSON number literal; `none` for a literal with a fraction or an
exponent, which does not fit a Go `int`. -/
def intOfLiteral (literal : String) : Option Int :=
  match literal.data with
  | [] => none
  | c :: ds =>
    if c.toNat = 45 then (natOfDigits ds).map (fun n => -(n : Int))
    else (natOfDigits (c :: ds)).map (fun n => (n : Int))

/-- Decoding of an object into a struct, member by member in document order; decoding goes
on after a type error and the first error is the one reported.  A document that is not an
object does not fit a struct. -/
def decodeMembers {α : Type} (setField : α → String → Json → α × Option JsonError)
    (j : Json) (v : α) : α × Option JsonError :=
  match j with
  | .obj members =>
    members.foldl
      (fun acc m =>
        let r := setField acc.1 (foldKey m.1) m.2
        (r.1, match acc.2 with
              | some e => some e
              | none => r.2))
      (v, none)
  | _ => (v, some (.mismatch ""))

/-- One member of an `SMSResponse` document, by the json tags of sms.go, lines 11-23.  The
string fields are set from JSON strings; `null` and unknown keys change nothing.  The
conversion of a number to `float32` is outside this fixture: a `price` that is not `null` is
reported as a mismatch. -/
def setSMSField (v : SMSResponse) (key : String) (val : Json) :
    SMSResponse × Option JsonError :=
  match val with
  | .null => (v, none)
  | .str x =>
    if key = "account_sid" then ({ v with AccountSid := x }, none)
    else if key = "api_version" then ({ v with ApiVersion := x }, none)
    else if key = "body" then ({ v with Body := x }, none)
    else if key = "date_created" then ({ v with DateCreated := x }, none)
    else if key = "date_sent" then ({ v with DateSent := x }, none)
    else if key = "date_updated" then ({ v with DateUpdated := x }, none)
    else if key = "direction" then ({ v with Direction := x }, none)
    else if key = "from" then ({ v with From := x }, none)
    else if key = "sid" then ({ v with Sid := x }, none)
    else if key = "status" then ({ v with Status := x }, none)
    else if key = "to" then ({ v with To := x }, none)
    else if key = "uri" then ({ v with Uri := x }, none)
    else if key = "price" then (v, some (.mismatch key))
    else (v, none)
  | _ =>
    if key ∈ ["account_sid", "api_version", "body", "date_created", "date_sent",
        "date_updated", "direction", "from", "price", "sid", "status", "to", "uri"] then
      (v, some (.mismatch key))
    else (v, none)

/-- One member of an `Exception` document: `status` and `code` are integers, `message` and
`more_info` are strings; `null` and unknown keys change nothing. -/
def setExceptionField (v : Exception) (key : String) (val : Json) :
    Exception × Option JsonError :=
  match val with
  | .null => (v, none)
  | .str x =>
    if key = "message" then ({ v with Message := x }, none)
    else if key = "more_info" then ({ v with MoreInfo := x }, none)
    else if key = "status" ∨ key = "code" then (v, some (.mismatch key))
    else (v, none)
  | .num literal =>
    if key = "status" then
      match intOfLiteral literal with
      | some n => ({ v with Status := n }, none)
      | none => (v, some (.mismatch key))
    else if key = "code" then
      match intOfLiteral literal with
      | some n => ({ v with Code := n }, none)
      | none => (v, some (.mismatch key))
    else if key = "message" ∨ key = "more_info" then (v, some (.mismatch key))
    else (v, none)
  | _ =>
    if key ∈ ["status", "message", "more_info", "code"] then (v, some (.mismatch key))
    else (v, none)

/-- Elements of a JSON array decoded as `SMSResponse` values, each from the zero value, with
the first error met. -/
def decodeSMSItems (items : List Json) : List SMSResponse × Option JsonError :=
  items.foldr
    (fun item acc =>
      let r := decodeMembers setSMSField item SMSResponse.zero
      (r.1 :: acc.1, match r.2 with
                     | some e => some e
                     | none => acc.2))
    ([], none)

/-- One member of an `SMSListResponse` document, by the json tags of sms.go, lines 27-37.
The field `SMSMessages` (line 38) has no tag, so its key is its own name: the key
`sms_messages` is an unknown key and changes nothing. -/
def setListField (v : SMSListResponse) (key : String) (val : Json) :
    SMSListResponse × Option JsonError :=
  match val with
  | .null => (v, none)
  | .str x =>
    if key = "uri" then ({ v with Uri := x }, none)
    else if key = "first_page_uri" then ({ v with FirstPageUri := x }, none)
    else if key = "last_page_uri" then ({ v with LastPageUri := x }, none)
    else if key = "next_page_uri" then ({ v with NextPageUri := x }, none)
    else if key = "previous_page_uri" then ({ v with PreviousPageUri := x }, none)
    else if key ∈ ["start", "total", "num_pages", "page", "page_size", "end",
        "smsmessages"] then (v, some (.mismatch key))
    else (v, none)
  | .num literal =>
    if key ∈ ["start", "total", "num_pages", "page", "page_size", "end"] then
      match intOfLiteral literal with
      | some n =>
        if key = "start" then ({ v with Start := n }, none)
        else if key = "total" then ({ v with Total := n }, none)
        else if key = "num_pages" then ({ v with NumPages := n }, none)
        else if key = "page" then ({ v with Page := n }, none)
        else if key = "page_size" then ({ v with PageSize := n }, none)
        else ({ v with End := n }, none)
      | none => (v, some (.mismatch key))
    else if key ∈ ["uri", "first_page_uri", "last_page_uri", "next_page_uri",
        "previous_page_uri", "smsmessages"] then (v, some (.mismatch key))
    else (v, none)
  | .arr items =>
    if key = "smsmessages" then
      ({ v with SMSMessages := (decodeSMSItems items).1 }, (decodeSMSItems items).2)
    else if key ∈ ["start", "total", "num_pages", "page", "page_size", "end", "uri",
        "first_page_uri", "last_page_uri", "next_page_uri", "previous_page_uri"] then
      (v, some (.mismatch key))
    else (v, none)
  | _ =>
    if key ∈ ["start", "total", "num_pages", "page", "page_size", "end", "uri",
        "first_page_uri", "last_page_uri", "next_page_uri", "previous_page_uri",
        "smsmessages"] then (v, some (.mismatch key))
    else (v, none)

/-- A message as the provider reports it: sid SM1, status queued. -/
def messageBody : String :=
  "\x7b\"sid\":\"SM1\",\"status\":\"queued\"\x7d"

/-- A page of two messages under the provider's key `sms_messages`. -/
def pageBody : String :=
  "\x7b\"total\":2,\"sms_messages\":[\x7b\"sid\":\"SM1\"\x7d,\x7b\"sid\":\"SM2\"\x7d]\x7d"

/-- A fault as the provider reports it. -/
def faultBody : String :=
  "\x7b\"status\":400,\"message\":\"Bad request\",\"code\":21211\x7d"

/-- A decoder whose parser knows five bodies (the literal `null`, the empty object,
`messageBody`, `pageBody` and `faultBody`) and rejects every other body as malformed.  Parsed
documents are decoded member by member into the three structs. -/
def stubCodec : Codec where
  parse := fun data =>
    if data = "null" then .ok .null
    else if data = "\x7b\x7d" then .ok (.obj [])
    else if data = messageBody then
      .ok (.obj [("sid", .str "SM1"), ("status", .str "queued")])
    else if data = pageBody then
      .ok (.obj [("total", .num "2"),
        ("sms_messages", .arr [.obj [("sid", .str "SM1")], .obj [("sid", .str "SM2")]])])
    else if data = faultBody then
      .ok (.obj [("status", .num "400"), ("message", .str "Bad request"),
        ("code", .num "21211")])
    else .error (.malformed 0)
  decodeSMS := decodeMembers setSMSField
  decodeList := decodeMembers setListField
  decodeException := decodeMembers setExceptionField

/-- An environment whose requester answers every POST with `onPost` and every GET with
`onGet`. -/
def stubEnv (onPost onGet : Reply) : Env :=
  ⟨"json",
   fun _ rq =>
    match rq with
    | .POST _ _ => onPost
    | .GET _ _ => onGet,
   stubCodec⟩

/-- A client configuration. -/
def stubClient : Twilio := ⟨"https://api.example.com/2010-04-01", "AC1"⟩

/-! ## Lemmas on `url.Values` -/

theorem lookup_filter_ne (v : Values) (k k' : String) (h : k' ≠ k) :
    List.lookup k' (v.filter (fun e => e.1 != k)) = List.lookup k' v := by
  induction v with
  | nil => rfl
  | cons e rest ih =>
    obtain ⟨a, x⟩ := e
    by_cases ha : a = k
    · subst ha
      have hk : (k' == a) = false := by simpa using h
      simp [List.filter_cons, List.lookup_cons, hk, ih]
    · have hf : (a != k) = true := by simpa using ha
      simp only [List.filter_cons, hf, if_true, List.lookup_cons, ih]

theorem find_Set (v : Values) (k x k' : String) :
    (v.Set k x).find k' = if k' = k then some [x] else v.find k' := by
  unfold Values.Set Values.find
  by_cases h : k' = k
  · subst h
    simp [List.lookup_cons]
  · have hk : (k' == k) = false := by simpa using h
    simp only [List.lookup_cons, hk, if_neg h]
    exact lookup_filter_ne v k k' h

theorem find_empty (k : String) : Values.empty.find k = none := rfl

theorem filter_ne_of_not_mem_keys (acc : Values) (k : String)
    (h : k ∉ acc.map Prod.fst) : acc.filter (fun e => e.1 != k) = acc := by
  rw [List.filter_eq_self]
  intro e he
  have hne : e.1 ≠ k := fun hk => h (hk ▸ List.mem_map_of_mem Prod.fst he)
  simpa using hne

/-- Setting pairwise distinct fresh keys one after the other stacks the entries. -/
theorem foldl_Set_of_nodup (fs : List (String × String)) (acc : Values)
    (hnd : (fs.map Prod.fst).Nodup) (hfresh : ∀ k ∈ fs.map Prod.fst, k ∉ acc.map Prod.fst) :
    fs.foldl (fun ps kv => Values.Set ps kv.1 kv.2) acc =
      (fs.map (fun kv => (kv.1, [kv.2]))).reverse ++ acc := by
  induction fs generalizing acc with
  | nil => rfl
  | cons kv rest ih =>
    have hk : kv.1 ∉ acc.map Prod.fst := hfresh kv.1 (by simp)
    have hnd' : kv.1 ∉ rest.map Prod.fst ∧ (rest.map Prod.fst).Nodup := by
      simpa using hnd
    have hset : Values.Set acc kv.1 kv.2 = (kv.1, [kv.2]) :: acc := by
      unfold Values.Set
      rw [filter_ne_of_not_mem_keys acc kv.1 hk]
    rw [List.foldl_cons, hset, ih _ hnd'.2]
    · simp
    · intro k hkr hmem
      rw [List.map_cons, List.mem_cons] at hmem
      rcases hmem with h | h
      · exact hnd'.1 (h ▸ hkr)
      · exact hfresh k (by simp [hkr]) h

theorem lookup_eq_some_iff_mem {β : Type} (l : List (String × β))
    (hnd : (l.map Prod.fst).Nodup) (k : String) (v : β) :
    List.lookup k l = some v ↔ (k, v) ∈ l := by
  induction l with
  | nil => simp
  | cons e rest ih =>
    obtain ⟨a, x⟩ := e
    have hnd' : a ∉ rest.map Prod.fst ∧ (rest.map Prod.fst).Nodup := by
      simpa using hnd
    by_cases hka : k = a
    · subst hka
      have hno : ∀ y, (k, y) ∉ rest := fun y hy =>
        hnd'.1 (List.mem_map_of_mem Prod.fst hy)
      simp [List.lookup_cons, hno, eq_comm]
    · have hb : (k == a) = false := by simpa using hka
      simp [List.lookup_cons, hb, ih hnd'.2, hka]

theorem lookup_eq_of_perm {β : Type} (l₁ l₂ : List (String × β)) (hp : l₁.Perm l₂)
    (hnd : (l₂.map Prod.fst).Nodup) (k : String) :
    List.lookup k l₁ = List.lookup k l₂ := by
  have hnd₁ : (l₁.map Prod.fst).Nodup := ((hp.map Prod.fst).nodup_iff).2 hnd
  apply Option.ext
  intro v
  simp only [Option.mem_def]
  rw [lookup_eq_some_iff_mem l₁ hnd₁, lookup_eq_some_iff_mem l₂ hnd, hp.mem_iff]

theorem lookup_map_singleton (l : List (String × String)) (k : String) :
    List.lookup k (l.map (fun kv => (kv.1, [kv.2]))) =
      (List.lookup k l).map (fun v => [v]) := by
  induction l with
  | nil => rfl
  | cons e rest ih =>
    obtain ⟨a, x⟩ := e
    by_cases hk : (k == a) = true
    · simp [List.lookup_cons, hk]
    · have hb : (k == a) = false := by simpa using hk
      simp [List.lookup_cons, hb, ih]

/-! ## The request each operation makes -/

theorem SendSMS_trace (env : Env) (t : Twilio) (from_ to_ body : String) (p : SMSParams)
    (trace : List Request) :
    (SendSMS env t from_ to_ body p trace).2 =
      trace ++ [Request.POST (smsEndpoint t ++ "." ++ env.apiFormat)
        (if p.ApplicationSid ≠ "" then
          (if p.StatusCallback ≠ "" then
            (((Values.empty.Set "From" from_).Set "To" to_).Set "Body" body).Set
              "StatusCallback" p.StatusCallback
           else ((Values.empty.Set "From" from_).Set "To" to_).Set "Body" body).Set
            "ApplicationSid" p.ApplicationSid
         else
          (if p.StatusCallback ≠ "" then
            (((Values.empty.Set "From" from_).Set "To" to_).Set "Body" body).Set
              "StatusCallback" p.StatusCallback
           else ((Values.empty.Set "From" from_).Set "To" to_).Set "Body" body))] := by
  simp only [SendSMS, post]
  repeat' split
  all_goals rfl

theorem GetSMS_trace (env : Env) (t : Twilio) (sid : String) (trace : List Request) :
    (GetSMS env t sid trace).2 =
      trace ++ [Request.GET (smsEndpoint t ++ "/" ++ sid ++ "." ++ env.apiFormat)
        Values.empty] := by
  simp only [GetSMS, get]
  repeat' split
  all_goals rfl

theorem ListSMS_trace (env : Env) (t : Twilio) (filters : List (String × String))
    (trace : List Request) :
    (ListSMS env t filters trace).2 =
      trace ++ [Request.GET (smsEndpoint t ++ "." ++ env.apiFormat)
        (filters.foldl (fun ps kv => Values.Set ps kv.1 kv.2) Values.empty)] := by
  simp only [ListSMS, get]
  repeat' split
  all_goals rfl

/-- Reading the form that `SendSMS` builds, key by key. -/
theorem sendForm_find (from_ to_ body : String) (p : SMSParams) (k : String) :
    Values.find
      (if p.ApplicationSid ≠ "" then
        (if p.StatusCallback ≠ "" then
          (((Values.empty.Set "From" from_).Set "To" to_).Set "Body" body).Set
            "StatusCallback" p.StatusCallback
         else ((Values.empty.Set "From" from_).Set "To" to_).Set "Body" body).Set
          "ApplicationSid" p.ApplicationSid
       else
        (if p.StatusCallback ≠ "" then
          (((Values.empty.Set "From" from_).Set "To" to_).Set "Body" body).Set
            "StatusCallback" p.StatusCallback
         else ((Values.empty.Set "From" from_).Set "To" to_).Set "Body" body)) k =
      if k = "ApplicationSid" ∧ p.ApplicationSid ≠ "" then some [p.ApplicationSid]
      else if k = "StatusCallback" ∧ p.StatusCallback ≠ "" then some [p.StatusCallback]
      else if k = "Body" then some [body]
      else if k = "To" then some [to_]
      else if k = "From" then some [from_]
      else none := by
  by_cases ha : p.ApplicationSid = "" <;> by_cases hs : p.StatusCallback = "" <;>
    simp [ha, hs, find_Set, find_empty]

/-! ## Lemmas on `Unmarshal` -/

theorem Unmarshal_malformed {α : Type} (parse : String → Except JsonError Json)
    (decode : Json → α → α × Option JsonError) (zero : α) (data : String) (v : Option α)
    (e : JsonError) (h : parse data = .error e) :
    Unmarshal parse decode zero data v = (v, some e) := by
  simp [Unmarshal, h]

theorem Unmarshal_null {α : Type} (parse : String → Except JsonError Json)
    (decode : Json → α → α × Option JsonError) (zero : α) (data : String) (v : Option α)
    (h : parse data = .ok .null) :
    Unmarshal parse decode zero data v = (none, none) := by
  simp [Unmarshal, h]

theorem Unmarshal_value {α : Type} (parse : String → Except JsonError Json)
    (decode : Json → α → α × Option JsonError) (zero : α) (data : String) (v : Option α)
    (j : Json) (h : parse data = .ok j) (hj : j ≠ .null) :
    Unmarshal parse decode zero data v =
      (some (decode j (v.getD zero)).1, (decode j (v.getD zero)).2) := by
  cases j <;> simp_all [Unmarshal]

/-- The request on the trace is the one the reply was computed from. -/
theorem last_eq_of_append_singleton {trace : List Request} {a b : Request}
    (h : trace ++ [a] = trace ++ [b]) : a = b := by
  simpa using h

/-! ## The result of each operation, by the reply received -/

theorem SendSMS_result (env : Env) (t : Twilio) (from_ to_ body : String) (p : SMSParams)
    (trace : List Request) (rq : Request)
    (hrq : (SendSMS env t from_ to_ body p trace).2 = trace ++ [rq]) :
    (SendSMS env t from_ to_ body p trace).1 =
      match (env.requester trace rq).err with
      | some err => (none, some err)
      | none =>
        if (env.requester trace rq).status ≠ StatusCreated then
          match (Unmarshal env.codec.parse env.codec.decodeException Exception.zero
              (env.requester trace rq).body (some Exception.zero)).2 with
          | some err => (none, some (.json err))
          | none => (none, some (.exception
              (Unmarshal env.codec.parse env.codec.decodeException Exception.zero
                (env.requester trace rq).body (some Exception.zero)).1))
        else
          match (Unmarshal env.codec.parse env.codec.decodeSMS SMSResponse.zero
              (env.requester trace rq).body none).2 with
          | some err => (none, some (.json err))
          | none => ((Unmarshal env.codec.parse env.codec.decodeSMS SMSResponse.zero
              (env.requester trace rq).body none).1, none) := by
  rw [SendSMS_trace] at hrq
  have hq := last_eq_of_append_singleton hrq
  subst hq
  simp only [SendSMS, post]
  repeat' split
  all_goals simp_all

theorem GetSMS_result (env : Env) (t : Twilio) (sid : String)
    (trace : List Request) (rq : Request)
    (hrq : (GetSMS env t sid trace).2 = trace ++ [rq]) :
    (GetSMS env t sid trace).1 =
      match (env.requester trace rq).err with
      | some err => (none, some err)
      | none =>
        if (env.requester trace rq).status ≠ StatusOK then
          match (Unmarshal env.codec.parse env.codec.decodeException Exception.zero
              (env.requester trace rq).body (some Exception.zero)).2 with
          | some err => (none, some (.json err))
          | none => (none, some (.exception
              (Unmarshal env.codec.parse env.codec.decodeException Exception.zero
                (env.requester trace rq).body (some Exception.zero)).1))
        else
          match (Unmarshal env.codec.parse env.codec.decodeSMS SMSResponse.zero
              (env.requester trace rq).body none).2 with
          | some err => (none, some (.json err))
          | none => ((Unmarshal env.codec.parse env.codec.decodeSMS SMSResponse.zero
              (env.requester trace rq).body none).1, none) := by
  rw [GetSMS_trace] at hrq
  have hq := last_eq_of_append_singleton hrq
  subst hq
  simp only [GetSMS, get]
  repeat' split
  all_goals simp_all

theorem ListSMS_result (env : Env) (t : Twilio) (filters : List (String × String))
    (trace : List Request) (rq : Request)
    (hrq : (ListSMS env t filters trace).2 = trace ++ [rq]) :
    (ListSMS env t filters trace).1 =
      match (env.requester trace rq).err with
      | some err => (none, some err)
      | none =>
        if (env.requester trace rq).status ≠ StatusOK then
          match (Unmarshal env.codec.parse env.codec.decodeException Exception.zero
              (env.requester trace rq).body (some Exception.zero)).2 with
          | some err => (none, some (.json err))
          | none => (none, some (.exception
              (Unmarshal env.codec.parse env.codec.decodeException Exception.zero
                (env.requester trace rq).body (some Exception.zero)).1))
        else
          match (Unmarshal env.codec.parse env.codec.decodeList SMSListResponse.zero
              (env.requester trace rq).body none).2 with
          | some err => (none, some (.json err))
          | none => ((Unmarshal env.codec.parse env.codec.decodeList SMSListResponse.zero
              (env.requester trace rq).body none).1, none) := by
  rw [ListSMS_trace] at hrq
  have hq := last_eq_of_append_singleton hrq
  subst hq
  simp only [ListSMS, get]
  repeat' split
  all_goals simp_all

/-! ## Request construction -/

/-- C1: the form parameter set that SendSMS hands to the POST requester maps From, To and
Body to the three arguments, holds StatusCallback exactly when `p.StatusCallback` is not
empty (then with that value), holds ApplicationSid exactly when `p.ApplicationSid` is not
empty (then with that value), and holds no other key. -/
theorem SendSMS_form_parameters (env : Env) (t : Twilio) (from_ to_ body : String)
    (p : SMSParams) (trace : List Request) :
    ∃ endpoint params,
      (SendSMS env t from_ to_ body p trace).2 = trace ++ [Request.POST endpoint params] ∧
      params.find "From" = some [from_] ∧
      params.find "To" = some [to_] ∧
      params.find "Body" = some [body] ∧
      (params.find "StatusCallback" ≠ none ↔ p.StatusCallback ≠ "") ∧
      params.find "StatusCallback" =
        (if p.StatusCallback = "" then none else some [p.StatusCallback]) ∧
      (params.find "ApplicationSid" ≠ none ↔ p.ApplicationSid ≠ "") ∧
      params.find "ApplicationSid" =
        (if p.ApplicationSid = "" then none else some [p.ApplicationSid]) ∧
      ∀ k, params.find k = none ∨
        k ∈ ["From", "To", "Body", "StatusCallback", "ApplicationSid"] := by
  refine ⟨_, _, SendSMS_trace env t from_ to_ body p trace, ?_, ?_, ?_, ?_, ?_, ?_, ?_, ?_⟩
  · rw [sendForm_find]; simp
  · rw [sendForm_find]; simp
  · rw [sendForm_find]; simp
  · rw [sendForm_find]; by_cases hs : p.StatusCallback = "" <;> simp [hs]
  · rw [sendForm_find]; by_cases hs : p.StatusCallback = "" <;> simp [hs]
  · rw [sendForm_find]; by_cases ha : p.ApplicationSid = "" <;> simp [ha]
  · rw [sendForm_find]; by_cases ha : p.ApplicationSid = "" <;> simp [ha]
  · intro k
    rw [sendForm_find]
    by_cases h1 : k = "ApplicationSid"
    · right; simp [h1]
    by_cases h2 : k = "StatusCallback"
    · right; simp [h2]
    by_cases h3 : k = "Body"
    · right; simp [h3]
    by_cases h4 : k = "To"
    · right; simp [h4]
    by_cases h5 : k = "From"
    · right; simp [h5]
    left; simp [h1, h2, h3, h4, h5]

/-- C7: SendSMS and ListSMS request the endpoint
`BaseUrl/Accounts/AccountSid/SMS/Messages.format` and GetSMS requests
`BaseUrl/Accounts/AccountSid/SMS/Messages/sid.format`; the endpoint is a function of the base
URL, the account sid, the message sid and the format only, whatever the requester, the trace
and the other arguments are. -/
theorem endpoint_construction (env : Env) (t : Twilio) (from_ to_ body : String)
    (p : SMSParams) (filters : List (String × String)) (sid : String)
    (trace : List Request) :
    smsEndpoint t = t.BaseUrl ++ "/Accounts/" ++ t.AccountSid ++ "/SMS/Messages" ∧
    (∃ params, (SendSMS env t from_ to_ body p trace).2 = trace ++
      [Request.POST
        (t.BaseUrl ++ "/Accounts/" ++ t.AccountSid ++ "/SMS/Messages" ++ "." ++ env.apiFormat)
        params]) ∧
    (∃ params, (ListSMS env t filters trace).2 = trace ++
      [Request.GET
        (t.BaseUrl ++ "/Accounts/" ++ t.AccountSid ++ "/SMS/Messages" ++ "." ++ env.apiFormat)
        params]) ∧
    (∃ params, (GetSMS env t sid trace).2 = trace ++
      [Request.GET
        (t.BaseUrl ++ "/Accounts/" ++ t.AccountSid ++ "/SMS/Messages" ++ "/" ++ sid ++ "." ++
          env.apiFormat)
        params]) :=
  ⟨rfl, ⟨_, SendSMS_trace env t from_ to_ body p trace⟩,
    ⟨_, ListSMS_trace env t filters trace⟩, ⟨_, GetSMS_trace env t sid trace⟩⟩

/-- C8: for a filter map (entries with pairwise distinct keys, listed in iteration order) the
query parameter set ListSMS hands to the GET requester has exactly the keys of the map, each
with its one value; the empty map gives the empty set; and another iteration order of the
same map gives the same set. -/
theorem ListSMS_query_parameters (env : Env) (t : Twilio) (filters : List (String × String))
    (trace : List Request) (hkeys : (filters.map Prod.fst).Nodup) :
    ∃ endpoint params,
      (ListSMS env t filters trace).2 = trace ++ [Request.GET endpoint params] ∧
      (∀ k, params.find k = (filters.lookup k).map (fun v => [v])) ∧
      (params.map Prod.fst).Perm (filters.map Prod.fst) ∧
      (ListSMS env t [] trace).2 = trace ++ [Request.GET endpoint Values.empty] ∧
      ∀ filters₂ : List (String × String), filters₂.Perm filters →
        ∃ params₂,
          (ListSMS env t filters₂ trace).2 = trace ++ [Request.GET endpoint params₂] ∧
          params₂.Perm params ∧ ∀ k, params₂.find k = params.find k := by
  have hform : ∀ fs : List (String × String), (fs.map Prod.fst).Nodup →
      fs.foldl (fun ps kv => Values.Set ps kv.1 kv.2) Values.empty =
        (fs.map (fun kv => (kv.1, [kv.2]))).reverse := by
    intro fs hfs
    rw [foldl_Set_of_nodup fs Values.empty hfs (by simp [Values.empty])]
    simp [Values.empty]
  have hkeysOf : ∀ fs : List (String × String),
      ((fs.map (fun kv => (kv.1, [kv.2]))).reverse.map Prod.fst).Perm (fs.map Prod.fst) := by
    intro fs
    rw [List.map_reverse, List.map_map]
    exact List.reverse_perm _
  have hfind : ∀ fs : List (String × String), (fs.map Prod.fst).Nodup → ∀ k,
      Values.find (fs.map (fun kv => (kv.1, [kv.2]))).reverse k =
        (fs.lookup k).map (fun v => [v]) := by
    intro fs hfs k
    unfold Values.find
    rw [← lookup_map_singleton]
    refine lookup_eq_of_perm _ _ (List.reverse_perm _) ?_ k
    have hfst : (fs.map (fun kv => (kv.1, [kv.2]))).map Prod.fst = fs.map Prod.fst := by
      rw [List.map_map]; rfl
    rw [hfst]; exact hfs
  refine ⟨_, _, ListSMS_trace env t filters trace, ?_, ?_, ?_, ?_⟩
  · intro k
    rw [hform filters hkeys]
    exact hfind filters hkeys k
  · rw [hform filters hkeys]
    exact hkeysOf filters
  · exact ListSMS_trace env t [] trace
  · intro filters₂ hp
    have hkeys₂ : (filters₂.map Prod.fst).Nodup := ((hp.map Prod.fst).nodup_iff).2 hkeys
    refine ⟨_, ListSMS_trace env t filters₂ trace, ?_, ?_⟩
    · rw [hform filters hkeys, hform filters₂ hkeys₂]
      exact ((List.reverse_perm _).trans (hp.map _)).trans (List.reverse_perm _).symm
    · intro k
      rw [hform filters hkeys, hform filters₂ hkeys₂, hfind filters hkeys,
        hfind filters₂ hkeys₂, lookup_eq_of_perm filters₂ filters hp hkeys k]

/-- C8 at the filter map with the single entry To = +15551234567. -/
theorem ListSMS_query_parameters_witness :
    ([("To", "+15551234567")].map Prod.fst).Nodup ∧
    ∃ endpoint params,
      (ListSMS (stubEnv ⟨"\x7b\x7d", 201, none⟩ ⟨"\x7b\x7d", 200, none⟩) stubClient
        [("To", "+15551234567")] []).2 = [] ++ [Request.GET endpoint params] ∧
      (∀ k, params.find k = ([("To", "+15551234567")].lookup k).map (fun v => [v])) ∧
      (params.map Prod.fst).Perm ([("To", "+15551234567")].map Prod.fst) ∧
      (ListSMS (stubEnv ⟨"\x7b\x7d", 201, none⟩ ⟨"\x7b\x7d", 200, none⟩) stubClient [] []).2 =
        [] ++ [Request.GET endpoint Values.empty] ∧
      ∀ filters₂ : List (String × String), filters₂.Perm [("To", "+15551234567")] →
        ∃ params₂,
          (ListSMS (stubEnv ⟨"\x7b\x7d", 201, none⟩ ⟨"\x7b\x7d", 200, none⟩) stubClient
            filters₂ []).2 = [] ++ [Request.GET endpoint params₂] ∧
          params₂.Perm params ∧ ∀ k, params₂.find k = params.find k :=
  ⟨by simp, ListSMS_query_parameters (stubEnv ⟨"\x7b\x7d", 201, none⟩ ⟨"\x7b\x7d", 200, none⟩)
    stubClient [("To", "+15551234567")] [] (by simp)⟩

/-- C9: whatever the requester answers, SendSMS adds exactly one POST request and nothing
else to the trace, GetSMS and ListSMS add exactly one GET request and nothing else, and the
request of GetSMS carries the empty parameter set. -/
theorem exactly_one_request (env : Env) (t : Twilio) (from_ to_ body : String)
    (p : SMSParams) (filters : List (String × String)) (sid : String)
    (trace : List Request) :
    (∃ endpoint params,
      (SendSMS env t from_ to_ body p trace).2 = trace ++ [Request.POST endpoint params]) ∧
    (∃ endpoint,
      (GetSMS env t sid trace).2 = trace ++ [Request.GET endpoint Values.empty]) ∧
    (∃ endpoint params,
      (ListSMS env t filters trace).2 = trace ++ [Request.GET endpoint params]) :=
  ⟨⟨_, _, SendSMS_trace env t from_ to_ body p trace⟩,
    ⟨_, GetSMS_trace env t sid trace⟩, ⟨_, _, ListSMS_trace env t filters trace⟩⟩

/-- C10: SimpleSendSMS makes the same request and returns the same result as SendSMS with any
`p` whose two fields are empty, and the form it posts holds From, To and Body and nothing
else. -/
theorem SimpleSendSMS_eq_SendSMS (env : Env) (t : Twilio) (from_ to_ body : String)
    (p : SMSParams) (trace : List Request)
    (hs : p.StatusCallback = "") (ha : p.ApplicationSid = "") :
    SimpleSendSMS env t from_ to_ body trace = SendSMS env t from_ to_ body p trace ∧
    ∃ endpoint params,
      (SimpleSendSMS env t from_ to_ body trace).2 =
        trace ++ [Request.POST endpoint params] ∧
      ∀ k, params.find k =
        if k = "Body" then some [body]
        else if k = "To" then some [to_]
        else if k = "From" then some [from_]
        else none := by
  obtain ⟨sc, ap⟩ := p
  simp only at hs ha
  subst hs ha
  refine ⟨rfl, _, _, SendSMS_trace env t from_ to_ body ⟨"", ""⟩ trace, ?_⟩
  intro k
  rw [sendForm_find]
  simp

/-- C10 at a concrete call: both fields of `p` empty, a requester answering 201 with `{}`. -/
theorem SimpleSendSMS_eq_SendSMS_witness :
    (SMSParams.mk "" "").StatusCallback = "" ∧ (SMSParams.mk "" "").ApplicationSid = "" ∧
    (SimpleSendSMS (stubEnv ⟨"\x7b\x7d", 201, none⟩ ⟨"\x7b\x7d", 200, none⟩) stubClient
        "+15550001" "+15550002" "hi" [] =
      SendSMS (stubEnv ⟨"\x7b\x7d", 201, none⟩ ⟨"\x7b\x7d", 200, none⟩) stubClient
        "+15550001" "+15550002" "hi" ⟨"", ""⟩ [] ∧
      ∃ endpoint params,
        (SimpleSendSMS (stubEnv ⟨"\x7b\x7d", 201, none⟩ ⟨"\x7b\x7d", 200, none⟩) stubClient
          "+15550001" "+15550002" "hi" []).2 = [] ++ [Request.POST endpoint params] ∧
        ∀ k, params.find k =
          if k = "Body" then some ["hi"]
          else if k = "To" then some ["+15550002"]
          else if k = "From" then some ["+15550001"]
          else none) :=
  ⟨rfl, rfl, SimpleSendSMS_eq_SendSMS (stubEnv ⟨"\x7b\x7d", 201, none⟩ ⟨"\x7b\x7d", 200, none⟩)
    stubClient "+15550001" "+15550002" "hi" ⟨"", ""⟩ [] rfl rfl⟩

/-! ## Resolution of the reply -/

/-- C2: each operation makes its one request, and when the requester answers that request
with no transport error, the success status (201 for SendSMS, 200 for GetSMS and ListSMS) and
a body that parses to a non-null document which decodes without error into the success
struct, the operation returns that decoded record and a nil error. -/
theorem success_returns_decoded_record (env : Env) (t : Twilio) (trace : List Request)
    (data : String) (j : Json)
    (hparse : env.codec.parse data = .ok j) (hj : j ≠ Json.null) :
    (∀ (from_ to_ body : String) (p : SMSParams), ∃ endpoint params,
      (SendSMS env t from_ to_ body p trace).2 = trace ++ [Request.POST endpoint params] ∧
      ∀ r : SMSResponse,
        env.requester trace (Request.POST endpoint params) = ⟨data, StatusCreated, none⟩ →
        env.codec.decodeSMS j SMSResponse.zero = (r, none) →
        (SendSMS env t from_ to_ body p trace).1 = (some r, none)) ∧
    (∀ (sid : String), ∃ endpoint params,
      (GetSMS env t sid trace).2 = trace ++ [Request.GET endpoint params] ∧
      ∀ r : SMSResponse,
        env.requester trace (Request.GET endpoint params) = ⟨data, StatusOK, none⟩ →
        env.codec.decodeSMS j SMSResponse.zero = (r, none) →
        (GetSMS env t sid trace).1 = (some r, none)) ∧
    (∀ (filters : List (String × String)), ∃ endpoint params,
      (ListSMS env t filters trace).2 = trace ++ [Request.GET endpoint params] ∧
      ∀ r : SMSListResponse,
        env.requester trace (Request.GET endpoint params) = ⟨data, StatusOK, none⟩ →
        env.codec.decodeList j SMSListResponse.zero = (r, none) →
        (ListSMS env t filters trace).1 = (some r, none)) := by
  refine ⟨?_, ?_, ?_⟩
  · intro from_ to_ body p
    have hrq := SendSMS_trace env t from_ to_ body p trace
    refine ⟨_, _, hrq, ?_⟩
    intro r hreply hdec
    rw [SendSMS_result env t from_ to_ body p trace _ hrq, hreply]
    simp [Unmarshal_value _ _ _ _ _ j hparse hj, hdec]
  · intro sid
    have hrq := GetSMS_trace env t sid trace
    refine ⟨_, _, hrq, ?_⟩
    intro r hreply hdec
    rw [GetSMS_result env t sid trace _ hrq, hreply]
    simp [Unmarshal_value _ _ _ _ _ j hparse hj, hdec]
  · intro filters
    have hrq := ListSMS_trace env t filters trace
    refine ⟨_, _, hrq, ?_⟩
    intro r hreply hdec
    rw [ListSMS_result env t filters trace _ hrq, hreply]
    simp [Unmarshal_value _ _ _ _ _ j hparse hj, hdec]

/-- C2 at a requester that answers POST with 201 and GET with 200: SendSMS and GetSMS on the
body `messageBody` return the record with sid SM1 and status queued, ListSMS on the body
`pageBody` returns the page with total 2 that the decoder yields. -/
theorem success_returns_decoded_record_witness :
    stubCodec.parse messageBody = .ok (Json.obj [("sid", .str "SM1"), ("status", .str "queued")]) ∧
    Json.obj [("sid", .str "SM1"), ("status", .str "queued")] ≠ Json.null ∧
    stubCodec.parse pageBody ≠ .ok Json.null ∧
    (SendSMS (stubEnv ⟨messageBody, 201, none⟩ ⟨messageBody, 200, none⟩) stubClient
      "+15550001" "+15550002" "hi" ⟨"", ""⟩ []).1 =
        (some { SMSResponse.zero with Sid := "SM1", Status := "queued" }, none) ∧
    (GetSMS (stubEnv ⟨messageBody, 201, none⟩ ⟨messageBody, 200, none⟩) stubClient
      "SM1" []).1 =
        (some { SMSResponse.zero with Sid := "SM1", Status := "queued" }, none) ∧
    (ListSMS (stubEnv ⟨pageBody, 201, none⟩ ⟨pageBody, 200, none⟩) stubClient [] []).1 =
      (some { SMSListResponse.zero with Total := 2 }, none) :=
  have hm := success_returns_decoded_record
    (stubEnv ⟨messageBody, 201, none⟩ ⟨messageBody, 200, none⟩) stubClient [] messageBody
    (Json.obj [("sid", .str "SM1"), ("status", .str "queued")]) rfl
    (fun hn => Json.noConfusion hn)
  have hp := success_returns_decoded_record
    (stubEnv ⟨pageBody, 201, none⟩ ⟨pageBody, 200, none⟩) stubClient [] pageBody
    (Json.obj [("total", .num "2"),
      ("sms_messages", .arr [.obj [("sid", .str "SM1")], .obj [("sid", .str "SM2")]])]) rfl
    (fun hn => Json.noConfusion hn)
  ⟨rfl, fun hn => Json.noConfusion hn, fun hn => Json.noConfusion (Except.ok.inj hn),
    match hm.1 "+15550001" "+15550002" "hi" ⟨"", ""⟩ with
    | ⟨_, _, _, hres⟩ => hres _ rfl rfl,
    match hm.2.1 "SM1" with
    | ⟨_, _, _, hres⟩ => hres _ rfl rfl,
    match hp.2.2 [] with
    | ⟨_, _, _, hres⟩ => hres _ rfl rfl⟩

/-- C3: each operation makes its one request, and when the requester answers that request
with no transport error, a status other than the success status of the operation, and a body
that parses to a non-null document which decodes without error into an Exception, the
operation returns a nil record and that Exception as the error; the decoder of the success
struct plays no part. -/
theorem fault_returns_decoded_exception (env : Env) (t : Twilio) (trace : List Request)
    (data : String) (j : Json) (e : Exception)
    (hparse : env.codec.parse data = .ok j) (hj : j ≠ Json.null)
    (hdec : env.codec.decodeException j Exception.zero = (e, none)) :
    (∀ (from_ to_ body : String) (p : SMSParams), ∃ endpoint params,
      (SendSMS env t from_ to_ body p trace).2 = trace ++ [Request.POST endpoint params] ∧
      ∀ status : Int,
        env.requester trace (Request.POST endpoint params) = ⟨data, status, none⟩ →
        status ≠ StatusCreated →
        (SendSMS env t from_ to_ body p trace).1 =
          (none, some (Error.exception (some e)))) ∧
    (∀ (sid : String), ∃ endpoint params,
      (GetSMS env t sid trace).2 = trace ++ [Request.GET endpoint params] ∧
      ∀ status : Int,
        env.requester trace (Request.GET endpoint params) = ⟨data, status, none⟩ →
        status ≠ StatusOK →
        (GetSMS env t sid trace).1 = (none, some (Error.exception (some e)))) ∧
    (∀ (filters : List (String × String)), ∃ endpoint params,
      (ListSMS env t filters trace).2 = trace ++ [Request.GET endpoint params] ∧
      ∀ status : Int,
        env.requester trace (Request.GET endpoint params) = ⟨data, status, none⟩ →
        status ≠ StatusOK →
        (ListSMS env t filters trace).1 = (none, some (Error.exception (some e)))) := by
  refine ⟨?_, ?_, ?_⟩
  · intro from_ to_ body p
    have hrq := SendSMS_trace env t from_ to_ body p trace
    refine ⟨_, _, hrq, ?_⟩
    intro status hreply hst
    rw [SendSMS_result env t from_ to_ body p trace _ hrq, hreply]
    simp [Unmarshal_value _ _ _ _ _ j hparse hj, hdec, hst]
  · intro sid
    have hrq := GetSMS_trace env t sid trace
    refine ⟨_, _, hrq, ?_⟩
    intro status hreply hst
    rw [GetSMS_result env t sid trace _ hrq, hreply]
    simp [Unmarshal_value _ _ _ _ _ j hparse hj, hdec, hst]
  · intro filters
    have hrq := ListSMS_trace env t filters trace
    refine ⟨_, _, hrq, ?_⟩
    intro status hreply hst
    rw [ListSMS_result env t filters trace _ hrq, hreply]
    simp [Unmarshal_value _ _ _ _ _ j hparse hj, hdec, hst]

/-- C3 at a requester that answers every request with status 400 and the body `faultBody`:
each operation returns the Exception with status 400, message Bad request and code 21211. -/
theorem fault_returns_decoded_exception_witness :
    stubCodec.parse faultBody =
      .ok (Json.obj [("status", .num "400"), ("message", .str "Bad request"),
        ("code", .num "21211")]) ∧
    stubCodec.decodeException
      (Json.obj [("status", .num "400"), ("message", .str "Bad request"),
        ("code", .num "21211")]) Exception.zero =
      (⟨400, "Bad request", "", 21211⟩, none) ∧
    (SendSMS (stubEnv ⟨faultBody, 400, none⟩ ⟨faultBody, 400, none⟩) stubClient
      "+15550001" "+15550002" "hi" ⟨"", ""⟩ []).1 =
        (none, some (Error.exception (some ⟨400, "Bad request", "", 21211⟩))) ∧
    (GetSMS (stubEnv ⟨faultBody, 400, none⟩ ⟨faultBody, 400, none⟩) stubClient "SM1" []).1 =
      (none, some (Error.exception (some ⟨400, "Bad request", "", 21211⟩))) ∧
    (ListSMS (stubEnv ⟨faultBody, 400, none⟩ ⟨faultBody, 400, none⟩) stubClient [] []).1 =
      (none, some (Error.exception (some ⟨400, "Bad request", "", 21211⟩))) :=
  have h := fault_returns_decoded_exception
    (stubEnv ⟨faultBody, 400, none⟩ ⟨faultBody, 400, none⟩) stubClient [] faultBody
    (Json.obj [("status", .num "400"), ("message", .str "Bad request"),
      ("code", .num "21211")])
    ⟨400, "Bad request", "", 21211⟩ rfl (fun hn => Json.noConfusion hn) rfl
  ⟨rfl, rfl,
    match h.1 "+15550001" "+15550002" "hi" ⟨"", ""⟩ with
    | ⟨_, _, _, hres⟩ => hres 400 rfl (by decide),
    match h.2.1 "SM1" with
    | ⟨_, _, _, hres⟩ => hres 400 rfl (by decide),
    match h.2.2 [] with
    | ⟨_, _, _, hres⟩ => hres 400 rfl (by decide)⟩

/-- C4: each operation makes its one request, and when the requester answers that request
with a transport error, the operation returns a nil record and that very error, whatever the
body and the status are and whatever the JSON decoder would do with the body. -/
theorem transport_error_is_returned (apiFormat : String)
    (requester : List Request → Request → Reply) (t : Twilio) (trace : List Request) :
    (∀ (codec : Codec) (from_ to_ body : String) (p : SMSParams), ∃ endpoint params,
      (SendSMS ⟨apiFormat, requester, codec⟩ t from_ to_ body p trace).2 =
        trace ++ [Request.POST endpoint params] ∧
      ∀ err : Error,
        (requester trace (Request.POST endpoint params)).err = some err →
        (SendSMS ⟨apiFormat, requester, codec⟩ t from_ to_ body p trace).1 =
          (none, some err)) ∧
    (∀ (codec : Codec) (sid : String), ∃ endpoint params,
      (GetSMS ⟨apiFormat, requester, codec⟩ t sid trace).2 =
        trace ++ [Request.GET endpoint params] ∧
      ∀ err : Error,
        (requester trace (Request.GET endpoint params)).err = some err →
        (GetSMS ⟨apiFormat, requester, codec⟩ t sid trace).1 = (none, some err)) ∧
    (∀ (codec : Codec) (filters : List (String × String)), ∃ endpoint params,
      (ListSMS ⟨apiFormat, requester, codec⟩ t filters trace).2 =
        trace ++ [Request.GET endpoint params] ∧
      ∀ err : Error,
        (requester trace (Request.GET endpoint params)).err = some err →
        (ListSMS ⟨apiFormat, requester, codec⟩ t filters trace).1 = (none, some err)) := by
  refine ⟨?_, ?_, ?_⟩
  · intro codec from_ to_ body p
    have hrq := SendSMS_trace ⟨apiFormat, requester, codec⟩ t from_ to_ body p trace
    refine ⟨_, _, hrq, ?_⟩
    intro err herr
    rw [SendSMS_result _ t from_ to_ body p trace _ hrq]
    simp only [herr]
  · intro codec sid
    have hrq := GetSMS_trace ⟨apiFormat, requester, codec⟩ t sid trace
    refine ⟨_, _, hrq, ?_⟩
    intro err herr
    rw [GetSMS_result _ t sid trace _ hrq]
    simp only [herr]
  · intro codec filters
    have hrq := ListSMS_trace ⟨apiFormat, requester, codec⟩ t filters trace
    refine ⟨_, _, hrq, ?_⟩
    intro err herr
    rw [ListSMS_result _ t filters trace _ hrq]
    simp only [herr]

/-- C4 at a requester that fails every request while handing back a success status and a
body that would decode: each operation returns a nil record and the requester's error. -/
theorem transport_error_is_returned_witness :
    (SendSMS (stubEnv ⟨messageBody, 201, some (.other "dial tcp: timeout")⟩
        ⟨messageBody, 200, some (.other "dial tcp: timeout")⟩) stubClient
      "+15550001" "+15550002" "hi" ⟨"", ""⟩ []).1 =
        (none, some (Error.other "dial tcp: timeout")) ∧
    (GetSMS (stubEnv ⟨messageBody, 201, some (.other "dial tcp: timeout")⟩
        ⟨messageBody, 200, some (.other "dial tcp: timeout")⟩) stubClient "SM1" []).1 =
      (none, some (Error.other "dial tcp: timeout")) ∧
    (ListSMS (stubEnv ⟨messageBody, 201, some (.other "dial tcp: timeout")⟩
        ⟨messageBody, 200, some (.other "dial tcp: timeout")⟩) stubClient [] []).1 =
      (none, some (Error.other "dial tcp: timeout")) :=
  have h := transport_error_is_returned "json"
    (stubEnv ⟨messageBody, 201, some (.other "dial tcp: timeout")⟩
      ⟨messageBody, 200, some (.other "dial tcp: timeout")⟩).requester
    stubClient []
  ⟨match h.1 stubCodec "+15550001" "+15550002" "hi" ⟨"", ""⟩ with
    | ⟨_, _, _, hres⟩ => hres _ rfl,
    match h.2.1 stubCodec "SM1" with
    | ⟨_, _, _, hres⟩ => hres _ rfl,
    match h.2.2 stubCodec [] with
    | ⟨_, _, _, hres⟩ => hres _ rfl⟩

/-- C6: when the requester reports no transport error and a body that is not valid JSON,
GetSMS returns a nil record and the decoder's error, which is not an Exception; this holds
for status 200 (success path) and for every other status (fault path) alike. -/
theorem GetSMS_malformed_body (env : Env) (t : Twilio) (sid : String) (trace : List Request)
    (rq : Request) (data : String) (status : Int) (e : JsonError)
    (hrq : (GetSMS env t sid trace).2 = trace ++ [rq])
    (hreply : env.requester trace rq = ⟨data, status, none⟩)
    (hparse : env.codec.parse data = .error e) :
    (GetSMS env t sid trace).1 = (none, some (Error.json e)) ∧
    ∀ x : Option Exception, (GetSMS env t sid trace).1.2 ≠ some (Error.exception x) := by
  have hres : (GetSMS env t sid trace).1 = (none, some (Error.json e)) := by
    rw [GetSMS_result env t sid trace rq hrq, hreply]
    by_cases hst : status = StatusOK <;>
      simp [Unmarshal_malformed _ _ _ _ _ e hparse, hst]
  refine ⟨hres, ?_⟩
  intro x hx
  rw [hres] at hx
  cases hx

/-- C6 at the body `<html>`, once with status 200 and once with status 500. -/
theorem GetSMS_malformed_body_witness :
    stubCodec.parse "<html>" = .error (JsonError.malformed 0) ∧
    (GetSMS (stubEnv ⟨"", 201, none⟩ ⟨"<html>", 200, none⟩) stubClient "SM1" []).1 =
      (none, some (Error.json (JsonError.malformed 0))) ∧
    (GetSMS (stubEnv ⟨"", 201, none⟩ ⟨"<html>", 500, none⟩) stubClient "SM1" []).1 =
      (none, some (Error.json (JsonError.malformed 0))) :=
  ⟨rfl,
    (GetSMS_malformed_body (stubEnv ⟨"", 201, none⟩ ⟨"<html>", 200, none⟩) stubClient
      "SM1" [] _ "<html>" 200 (JsonError.malformed 0) rfl rfl rfl).1,
    (GetSMS_malformed_body (stubEnv ⟨"", 201, none⟩ ⟨"<html>", 500, none⟩) stubClient
      "SM1" [] _ "<html>" 500 (JsonError.malformed 0) rfl rfl rfl).1⟩

/-- Unless the body is the literal `null`, a decode that reports no error leaves the pointer
set. -/
theorem Unmarshal_non_null {α : Type} (parse : String → Except JsonError Json)
    (decode : Json → α → α × Option JsonError) (zero : α) (data : String) (v : Option α)
    (hnull : parse data ≠ .ok Json.null) :
    (∃ e, (Unmarshal parse decode zero data v).2 = some e) ∨
    (∃ x, Unmarshal parse decode zero data v = (some x, none)) := by
  cases hp : parse data with
  | error e =>
    left
    exact ⟨e, by rw [Unmarshal_malformed parse decode zero data v e hp]⟩
  | ok j =>
    have hj : j ≠ Json.null := fun h => hnull (by rw [hp, h])
    rw [Unmarshal_value parse decode zero data v j hp hj]
    cases hd : (decode j (v.getD zero)).2 with
    | some e => left; exact ⟨e, rfl⟩
    | none => right; exact ⟨_, rfl⟩

/-- For every body other than the literal `null` and no transport error, each operation
returns a record with a nil error, or a nil record with an Exception that is not nil, or a
nil record with a decoder error. -/
theorem non_null_body_outcomes (env : Env) (t : Twilio) (trace : List Request) (data : String)
    (hnull : env.codec.parse data ≠ .ok Json.null) :
    (∀ (from_ to_ body : String) (p : SMSParams) (rq : Request) (status : Int),
      (SendSMS env t from_ to_ body p trace).2 = trace ++ [rq] →
      env.requester trace rq = ⟨data, status, none⟩ →
      (∃ r, (SendSMS env t from_ to_ body p trace).1 = (some r, none)) ∨
      (∃ e, (SendSMS env t from_ to_ body p trace).1 =
        (none, some (Error.exception (some e)))) ∨
      (∃ je, (SendSMS env t from_ to_ body p trace).1 = (none, some (Error.json je)))) ∧
    (∀ (sid : String) (rq : Request) (status : Int),
      (GetSMS env t sid trace).2 = trace ++ [rq] →
      env.requester trace rq = ⟨data, status, none⟩ →
      (∃ r, (GetSMS env t sid trace).1 = (some r, none)) ∨
      (∃ e, (GetSMS env t sid trace).1 = (none, some (Error.exception (some e)))) ∨
      (∃ je, (GetSMS env t sid trace).1 = (none, some (Error.json je)))) ∧
    (∀ (filters : List (String × String)) (rq : Request) (status : Int),
      (ListSMS env t filters trace).2 = trace ++ [rq] →
      env.requester trace rq = ⟨data, status, none⟩ →
      (∃ r, (ListSMS env t filters trace).1 = (some r, none)) ∨
      (∃ e, (ListSMS env t filters trace).1 = (none, some (Error.exception (some e)))) ∨
      (∃ je, (ListSMS env t filters trace).1 = (none, some (Error.json je)))) := by
  refine ⟨?_, ?_, ?_⟩
  · intro from_ to_ body p rq status hrq hreply
    rw [SendSMS_result env t from_ to_ body p trace rq hrq, hreply]
    by_cases hst : status = StatusCreated
    · rcases Unmarshal_non_null env.codec.parse env.codec.decodeSMS SMSResponse.zero data
        none hnull with ⟨e, he⟩ | ⟨x, hx⟩
      · right; right; exact ⟨e, by simp [hst, he]⟩
      · left; exact ⟨x, by simp [hst, hx]⟩
    · rcases Unmarshal_non_null env.codec.parse env.codec.decodeException Exception.zero
        data (some Exception.zero) hnull with ⟨e, he⟩ | ⟨x, hx⟩
      · right; right; exact ⟨e, by simp [hst, he]⟩
      · right; left; exact ⟨x, by simp [hst, hx]⟩
  · intro sid rq status hrq hreply
    rw [GetSMS_result env t sid trace rq hrq, hreply]
    by_cases hst : status = StatusOK
    · rcases Unmarshal_non_null env.codec.parse env.codec.decodeSMS SMSResponse.zero data
        none hnull with ⟨e, he⟩ | ⟨x, hx⟩
      · right; right; exact ⟨e, by simp [hst, he]⟩
      · left; exact ⟨x, by simp [hst, hx]⟩
    · rcases Unmarshal_non_null env.codec.parse env.codec.decodeException Exception.zero
        data (some Exception.zero) hnull with ⟨e, he⟩ | ⟨x, hx⟩
      · right; right; exact ⟨e, by simp [hst, he]⟩
      · right; left; exact ⟨x, by simp [hst, hx]⟩
  · intro filters rq status hrq hreply
    rw [ListSMS_result env t filters trace rq hrq, hreply]
    by_cases hst : status = StatusOK
    · rcases Unmarshal_non_null env.codec.parse env.codec.decodeList SMSListResponse.zero
        data none hnull with ⟨e, he⟩ | ⟨x, hx⟩
      · right; right; exact ⟨e, by simp [hst, he]⟩
      · left; exact ⟨x, by simp [hst, hx]⟩
    · rcases Unmarshal_non_null env.codec.parse env.codec.decodeException Exception.zero
        data (some Exception.zero) hnull with ⟨e, he⟩ | ⟨x, hx⟩
      · right; right; exact ⟨e, by simp [hst, he]⟩
      · right; left; exact ⟨x, by simp [hst, hx]⟩

/-- With a body that is the JSON literal `null` and no transport error, the success status
gives a nil record with a nil error, and any other status gives as error an Exception pointer
that is nil. -/
theorem null_body_resolution (env : Env) (t : Twilio) (trace : List Request) (data : String)
    (hparse : env.codec.parse data = .ok Json.null) :
    (∀ (from_ to_ body : String) (p : SMSParams) (rq : Request) (status : Int),
      (SendSMS env t from_ to_ body p trace).2 = trace ++ [rq] →
      env.requester trace rq = ⟨data, status, none⟩ →
      (SendSMS env t from_ to_ body p trace).1 =
        if status = StatusCreated then (none, none)
        else (none, some (Error.exception none))) ∧
    (∀ (sid : String) (rq : Request) (status : Int),
      (GetSMS env t sid trace).2 = trace ++ [rq] →
      env.requester trace rq = ⟨data, status, none⟩ →
      (GetSMS env t sid trace).1 =
        if status = StatusOK then (none, none) else (none, some (Error.exception none))) ∧
    (∀ (filters : List (String × String)) (rq : Request) (status : Int),
      (ListSMS env t filters trace).2 = trace ++ [rq] →
      env.requester trace rq = ⟨data, status, none⟩ →
      (ListSMS env t filters trace).1 =
        if status = StatusOK then (none, none) else (none, some (Error.exception none))) := by
  refine ⟨?_, ?_, ?_⟩
  · intro from_ to_ body p rq status hrq hreply
    rw [SendSMS_result env t from_ to_ body p trace rq hrq, hreply]
    by_cases hst : status = StatusCreated <;> simp [Unmarshal_null _ _ _ _ _ hparse, hst]
  · intro sid rq status hrq hreply
    rw [GetSMS_result env t sid trace rq hrq, hreply]
    by_cases hst : status = StatusOK <;> simp [Unmarshal_null _ _ _ _ _ hparse, hst]
  · intro filters rq status hrq hreply
    rw [ListSMS_result env t filters trace rq hrq, hreply]
    by_cases hst : status = StatusOK <;> simp [Unmarshal_null _ _ _ _ _ hparse, hst]

/-- C5: at the body `null` with no transport error the result is none of the three announced
outcomes: with the success status each operation returns a nil record together with a nil
error, and with status 500 each returns a nil record and an error that wraps a nil Exception
pointer. -/
theorem null_body_outcomes :
    (SendSMS (stubEnv ⟨"null", 201, none⟩ ⟨"null", 200, none⟩) stubClient
      "+15550001" "+15550002" "hi" ⟨"", ""⟩ []).1 = (none, none) ∧
    (GetSMS (stubEnv ⟨"null", 201, none⟩ ⟨"null", 200, none⟩) stubClient "SM1" []).1 =
      (none, none) ∧
    (ListSMS (stubEnv ⟨"null", 201, none⟩ ⟨"null", 200, none⟩) stubClient [] []).1 =
      (none, none) ∧
    (SendSMS (stubEnv ⟨"null", 500, none⟩ ⟨"null", 500, none⟩) stubClient
      "+15550001" "+15550002" "hi" ⟨"", ""⟩ []).1 = (none, some (Error.exception none)) ∧
    (GetSMS (stubEnv ⟨"null", 500, none⟩ ⟨"null", 500, none⟩) stubClient "SM1" []).1 =
      (none, some (Error.exception none)) ∧
    (ListSMS (stubEnv ⟨"null", 500, none⟩ ⟨"null", 500, none⟩) stubClient [] []).1 =
      (none, some (Error.exception none)) :=
  have ok := null_body_resolution (stubEnv ⟨"null", 201, none⟩ ⟨"null", 200, none⟩)
    stubClient [] "null" rfl
  have ko := null_body_resolution (stubEnv ⟨"null", 500, none⟩ ⟨"null", 500, none⟩)
    stubClient [] "null" rfl
  ⟨ok.1 "+15550001" "+15550002" "hi" ⟨"", ""⟩ _ 201 rfl rfl,
    ok.2.1 "SM1" _ 200 rfl rfl,
    ok.2.2 [] _ 200 rfl rfl,
    ko.1 "+15550001" "+15550002" "hi" ⟨"", ""⟩ _ 500 rfl rfl,
    ko.2.1 "SM1" _ 500 rfl rfl,
    ko.2.2 [] _ 500 rfl rfl⟩

end TwilioSMS
